import Mathlib

/-!
Verification development for `baselines/common/cmd_util.py`.

Python strings handled by the residual argument parser are modelled as lists
of characters (`PyStr`), so that `str.split`, slicing and membership can be
reasoned about directly.  Python dictionaries are modelled as insertion-ordered
association lists with in-place update, matching CPython `dict` semantics for
`d[k] = v`.
-/

/-- A Python string, as its sequence of characters. -/
abbrev PyStr := List Char

/-- Literal helper: a Lean string literal viewed as a `PyStr`. -/
def pys (s : String) : PyStr := s.toList

/-- Python `s.split(sep)` for a single-character separator: splits at every
occurrence of `sep`, keeping empty fields; the result is always nonempty. -/
def pySplit (sep : Char) : PyStr → List PyStr
  | [] => [[]]
  | c :: rest =>
    let r := pySplit sep rest
    if c = sep then [] :: r else (c :: r.headD []) :: r.tail

/-- Python `arg.startswith('--')`. -/
def startsDashDash : PyStr → Bool
  | c1 :: c2 :: _ => c1 = '-' && c2 = '-'
  | _ => false

/-- CPython `d[k] = v` on an insertion-ordered dictionary: replace the value in
place if the key is present, else append the pair at the end. -/
def dictSet : List (PyStr × PyStr) → PyStr → PyStr → List (PyStr × PyStr)
  | [], k, v => [(k, v)]
  | (k0, v0) :: rest, k, v =>
    if k0 = k then (k, v) :: rest else (k0, v0) :: dictSet rest k v

/-- The loop of `parse_unknown_args` (cmd_util.py lines 216-229).  State:
`retval` is the dictionary built so far, `pbk` is `preceded_by_key`, and `key`
is the Python local variable `key` (which persists across iterations; its
initial value is never read because `pbk` starts `false`). -/
def parse_unknown_args_aux :
    List PyStr → List (PyStr × PyStr) → Bool → PyStr → List (PyStr × PyStr)
  | [], retval, _, _ => retval
  | arg :: rest, retval, pbk, key =>
    if startsDashDash arg then
      if '=' ∈ arg then
        let k := ((pySplit '=' arg).headD []).drop 2
        let v := (pySplit '=' arg).getD 1 []
        parse_unknown_args_aux rest (dictSet retval k v) pbk k
      else
        parse_unknown_args_aux rest retval true (arg.drop 2)
    else if pbk then
      parse_unknown_args_aux rest (dictSet retval key arg) false key
    else
      parse_unknown_args_aux rest retval pbk key

/-- `parse_unknown_args` (cmd_util.py lines 212-231): parse tokens not consumed
by the structured parser into a dictionary. -/
def parse_unknown_args (args : List PyStr) : List (PyStr × PyStr) :=
  parse_unknown_args_aux args [] false []

/-- Claim C1: the residual parser maps the spec's example inputs exactly as
stated: `["--x", "1", "--y=2", "--z"]` yields `{"x": "1", "y": "2"}` with `"z"`
absent; `["--a=1", "ignored", "--b", "2"]` yields `{"a": "1", "b": "2"}`; and
for the repeated key `["--k", "1", "--k", "2"]` the result is `{"k": "2"}`
(last occurrence wins). -/
theorem parse_unknown_args_spec_examples :
    parse_unknown_args [pys "--x", pys "1", pys "--y=2", pys "--z"] =
      [(pys "x", pys "1"), (pys "y", pys "2")] ∧
    (parse_unknown_args [pys "--x", pys "1", pys "--y=2", pys "--z"]).lookup
      (pys "z") = none ∧
    parse_unknown_args [pys "--a=1", pys "ignored", pys "--b", pys "2"] =
      [(pys "a", pys "1"), (pys "b", pys "2")] ∧
    parse_unknown_args [pys "--k", pys "1", pys "--k", pys "2"] =
      [(pys "k", pys "2")] := by
  refine ⟨?_, ?_, ?_, ?_⟩ <;> decide

theorem pySplit_cons_sep (sep : Char) (b : PyStr) :
    pySplit sep (sep :: b) = [] :: pySplit sep b := by
  simp [pySplit]

theorem pySplit_cons_ne (sep c : Char) (b : PyStr) (h : c ≠ sep) :
    pySplit sep (c :: b) =
      (c :: (pySplit sep b).headD []) :: (pySplit sep b).tail := by
  simp [pySplit, h]

theorem pySplit_append (sep : Char) (a b : PyStr) (ha : sep ∉ a) :
    pySplit sep (a ++ sep :: b) = a :: pySplit sep b := by
  induction a with
  | nil => simpa using pySplit_cons_sep sep b
  | cons c a' ih =>
    have hc : c ≠ sep := by rintro rfl; exact ha (List.mem_cons_self _ _)
    have ha' : sep ∉ a' := fun hm => ha (List.mem_cons_of_mem _ hm)
    rw [List.cons_append, pySplit_cons_ne sep c _ hc, ih ha']
    simp

theorem headD_pySplit (sep : Char) (v : PyStr) :
    (pySplit sep v).headD [] = v.takeWhile (fun c => c != sep) := by
  induction v with
  | nil => simp [pySplit]
  | cons c v' ih =>
    by_cases hc : c = sep
    · subst hc
      simp [pySplit_cons_sep, List.takeWhile]
    · rw [pySplit_cons_ne sep c v' hc]
      have hb : (c != sep) = true := bne_iff_ne.mpr hc
      simp only [List.takeWhile_cons, hb, if_true]
      simpa using ih

theorem pySplit_ne_nil (sep : Char) (s : PyStr) : pySplit sep s ≠ [] := by
  cases s with
  | nil => simp [pySplit]
  | cons c rest => by_cases h : c = sep <;> simp [pySplit, h]

/-- Claim C2 counterexample: for the token `--k=a=b` the code computes the
value as `arg.split('=')[1]`, so the assigned value is `"a"` — not the entire
remainder `"a=b"` right of the first `=` as the claim states. -/
theorem parse_eq_value_remainder_cex :
    parse_unknown_args [pys "--k=a=b"] = [(pys "k", pys "a")] ∧
    parse_unknown_args [pys "--k=a=b"] ≠ [(pys "k", pys "a=b")] :=
  ⟨by decide, by decide⟩

/-- Claim C2 (amended): a `--key=value` token is split at every `=`; the key is
the first field minus the leading `--`, and the assigned value is the second
field only, i.e. the part of the remainder that precedes the next `=`
character; any later fields are discarded. -/
theorem parse_eq_token_split_all (key value : PyStr) (hk : '=' ∉ key) :
    parse_unknown_args [('-' :: '-' :: key) ++ '=' :: value] =
      [(key, value.takeWhile (fun c => c != '='))] := by
  have hnk : '=' ∉ ('-' :: '-' :: key) := by
    intro hm
    rcases List.mem_cons.mp hm with h | hm'
    · exact absurd h (by decide)
    rcases List.mem_cons.mp hm' with h | hm''
    · exact absurd h (by decide)
    · exact hk hm''
  have hsplit : pySplit '=' (('-' :: '-' :: key) ++ '=' :: value) =
      ('-' :: '-' :: key) :: pySplit '=' value :=
    pySplit_append '=' ('-' :: '-' :: key) value hnk
  obtain ⟨h0, t0, hps⟩ := List.exists_cons_of_ne_nil (pySplit_ne_nil '=' value)
  have hh0 : h0 = value.takeWhile (fun c => c != '=') := by
    have := headD_pySplit '=' value
    rw [hps] at this
    simpa using this
  have hsd : startsDashDash (('-' :: '-' :: key) ++ '=' :: value) = true := by
    simp [startsDashDash]
  have hmem : '=' ∈ ('-' :: '-' :: key) ++ '=' :: value := by
    simp
  simp only [parse_unknown_args, parse_unknown_args_aux, hsd, hmem, if_true,
    hsplit, hps, if_pos]
  simp [dictSet, hh0]

theorem parse_eq_token_split_all_witness :
    parse_unknown_args [('-' :: '-' :: pys "k") ++ '=' :: pys "a=b"] =
      [(pys "k", (pys "a=b").takeWhile (fun c => c != '='))] :=
  parse_eq_token_split_all (pys "k") (pys "a=b") (by decide)

/-- Claim C3 counterexample: in `["--k", "--y=2", "3"]` the non-flag token
`"3"` is not ignored.  `preceded_by_key` is still `true` from the bare `"--k"`
because the `--key=value` branch never clears the flag, and that branch reset
the local `key` to `"y"`, so `"3"` overwrites the value of `"y"`: the result is
`{"y": "3"}`, where the claim demands `{"y": "2"}`. -/
theorem parse_nonflag_ignored_cex :
    parse_unknown_args [pys "--k", pys "--y=2", pys "3"] =
      [(pys "y", pys "3")] ∧
    parse_unknown_args [pys "--k", pys "--y=2", pys "3"] ≠
      [(pys "y", pys "2")] :=
  ⟨by decide, by decide⟩

/-- Claim C3 (amended): a token not starting with `--` contributes nothing
whenever the parser's pending-key flag is clear; in particular, starting from a
clear state, a `--key=value` token followed by a non-flag token yields the same
parse as without that non-flag token.  (Unamended, the claim fails: a
`--key=value` token does not clear a pending flag set by an earlier bare
`--key`, and the following non-flag token is assigned to the `=`-token's key.) -/
theorem parse_nonflag_ignored_when_not_pending
    (d : List (PyStr × PyStr)) (k arg : PyStr) (rest : List PyStr)
    (h : startsDashDash arg = false) (t : PyStr)
    (ht : startsDashDash t = true) (hte : '=' ∈ t) :
    parse_unknown_args_aux (arg :: rest) d false k =
      parse_unknown_args_aux rest d false k ∧
    parse_unknown_args_aux (t :: arg :: rest) d false k =
      parse_unknown_args_aux (t :: rest) d false k := by
  constructor
  · simp [parse_unknown_args_aux, h]
  · simp [parse_unknown_args_aux, ht, hte, h]

theorem parse_nonflag_ignored_when_not_pending_witness :
    parse_unknown_args_aux [pys "3"] [] false (pys "k") =
      parse_unknown_args_aux [] [] false (pys "k") ∧
    parse_unknown_args_aux [pys "--y=2", pys "3"] [] false (pys "k") =
      parse_unknown_args_aux [pys "--y=2"] [] false (pys "k") :=
  parse_nonflag_ignored_when_not_pending [] (pys "k") (pys "3") []
    (by decide) (pys "--y=2") (by decide) (by decide)

/-!
Environment factory (`make_env`), vectorized builder (`make_vec_env`) and
`make_mujoco_env`.  A constructed environment handle is modelled by the ordered
trace of construction/wrapping effects applied to it; external collaborators
(gym, `Monitor`, the vec-env classes, `RewardScaler`) are opaque, so the trace
records exactly the arguments the code under verification passes to them.
`MPI` is an `Option Nat`: `none` models the failed `mpi4py` import (the module
handle is `None`), `some r` models a present library whose communicator reports
rank `r`.
-/

/-- Python `os.path.join(d, f)` for a relative final component `f`. -/
def osPathJoin (d f : String) : String :=
  if d = "" then f else if d.endsWith "/" then d ++ f else d ++ "/" ++ f

/-- One effect of `make_env` on the handle under construction, in order. -/
inductive WrapEvent where
  | constructBase (envType envId : String) (gamestate : Option String)
  | flattenDict (keys : List String)
  | seedCall (s : Option Int)
  | updateParams (kwargs : List (String × String))
  | monitor (path : Option String)
  | wrapDeepmind (envType : String) (kwargs : List (String × String))
  | rewardScale (scale : ℚ)
deriving DecidableEq

/-- The wrapping chain of `make_env` before the final reward-scaling step
(cmd_util.py lines 57-89).  `mpi` is the imported MPI module (or `none`),
`logDir` is `logger.get_dir()` (`none` when no log directory is configured),
and `obsDictKeys` is `some keys` when the base environment's observation space
is a `gym.spaces.Dict` with those keys, `none` otherwise. -/
def make_env_unscaled (mpi : Option Nat) (logDir : Option String)
    (obsDictKeys : Option (List String))
    (env_id env_type : String) (subrank : Nat) (seed : Option Int)
    (gamestate : Option String) (flatten_dict_observations : Bool)
    (wrapper_kwargs : List (String × String)) : List WrapEvent :=
  let mpi_rank := mpi.getD 0
  let gs : Option String :=
    if env_type = "retro" then some (gamestate.getD "retro.State.DEFAULT")
    else none
  let t1 := [WrapEvent.constructBase env_type env_id gs]
  let t2 := t1 ++
    (if flatten_dict_observations && obsDictKeys.isSome then
      [WrapEvent.flattenDict (obsDictKeys.getD [])]
    else [])
  let t3 := t2 ++ [WrapEvent.seedCall (seed.map (fun s => s + subrank))]
  let t4 := t3 ++
    (if env_id = "priors-v0" then [WrapEvent.updateParams wrapper_kwargs]
     else [])
  let mpath := logDir.map (fun d =>
    osPathJoin d (Nat.repr mpi_rank ++ "." ++ Nat.repr subrank))
  let t5 := t4 ++ [WrapEvent.monitor mpath]
  t5 ++
    (if env_type = "atari" then [WrapEvent.wrapDeepmind "atari" wrapper_kwargs]
     else if env_type = "retro" then
       [WrapEvent.wrapDeepmind "retro" wrapper_kwargs]
     else [])

/-- `make_env` (cmd_util.py lines 54-94): build and wrap a single environment;
the chain of lines 57-89 followed by the conditional reward scaler of
lines 91-92. -/
def make_env (mpi : Option Nat) (logDir : Option String)
    (obsDictKeys : Option (List String))
    (env_id env_type : String) (subrank : Nat) (seed : Option Int)
    (reward_scale : ℚ) (gamestate : Option String)
    (flatten_dict_observations : Bool)
    (wrapper_kwargs : List (String × String)) : List WrapEvent :=
  make_env_unscaled mpi logDir obsDictKeys env_id env_type subrank seed
    gamestate flatten_dict_observations wrapper_kwargs ++
  (if reward_scale ≠ 1 then [WrapEvent.rewardScale reward_scale] else [])

/-- The arguments one worker thunk of `make_vec_env` closes over
(cmd_util.py lines 36-44). -/
structure EnvThunk where
  env_id : String
  env_type : String
  subrank : Nat
  seed : Option Int
  reward_scale : ℚ
  gamestate : Option String
  flatten_dict_observations : Bool
  wrapper_kwargs : List (String × String)
deriving DecidableEq

/-- The vectorized handle returned by `make_vec_env`: either a
`SubprocVecEnv` or a `DummyVecEnv`, holding the unevaluated per-replica
thunks it was constructed with. -/
inductive VecEnv where
  | subproc (thunks : List EnvThunk)
  | dummy (thunks : List EnvThunk)
deriving DecidableEq

/-- The effects of a `make_vec_env` call: the value passed to
`set_global_seeds` and the vectorized handle returned. -/
structure VecEnvResult where
  globalSeed : Option Int
  vec : VecEnv
deriving DecidableEq

/-- `make_thunk(rank)` (cmd_util.py lines 36-44): the closure built for one
replica, capturing `make_vec_env`'s arguments, with `seed2` the already
rank-offset seed. -/
def make_thunk (env_id env_type : String) (seed2 : Option Int)
    (reward_scale : ℚ) (gamestate : Option String)
    (flatten_dict_observations : Bool)
    (wrapper_kwargs : List (String × String)) (rank : Nat) : EnvThunk :=
  { env_id := env_id, env_type := env_type, subrank := rank, seed := seed2,
    reward_scale := reward_scale, gamestate := gamestate,
    flatten_dict_observations := flatten_dict_observations,
    wrapper_kwargs := wrapper_kwargs }

/-- `make_vec_env` (cmd_util.py lines 22-51). -/
def make_vec_env (mpi : Option Nat) (env_id env_type : String)
    (num_env : Nat) (seed : Option Int)
    (wrapper_kwargs : List (String × String)) (start_index : Nat)
    (reward_scale : ℚ) (flatten_dict_observations : Bool)
    (gamestate : Option String) : VecEnvResult :=
  let mpi_rank := mpi.getD 0
  let seed2 := seed.map (fun s => s + 10000 * (mpi_rank : Int))
  let mkThunk := make_thunk env_id env_type seed2 reward_scale gamestate
    flatten_dict_observations wrapper_kwargs
  { globalSeed := seed2
    vec :=
      if num_env > 1 then
        VecEnv.subproc ((List.range num_env).map (fun i =>
          mkThunk (i + start_index)))
      else
        VecEnv.dummy [mkThunk start_index] }

/-- Forcing one worker thunk — invoking it calls `make_env` with the stored
arguments (cmd_util.py lines 37-44); construction happens only at that point. -/
def runThunk (mpi : Option Nat) (logDir : Option String)
    (obsDictKeys : Option (List String)) (t : EnvThunk) : List WrapEvent :=
  make_env mpi logDir obsDictKeys t.env_id t.env_type t.subrank t.seed
    t.reward_scale t.gamestate t.flatten_dict_observations t.wrapper_kwargs

/-- The per-replica thunk list a vectorized handle owns. -/
def VecEnv.thunks : VecEnv → List EnvThunk
  | VecEnv.subproc ts => ts
  | VecEnv.dummy ts => ts

/-- Modelled from the spec: both vectorized handles (`SubprocVecEnv` and
`DummyVecEnv`, repository code not under `src/`) expose exactly one replica per
element of the function list they are constructed with. -/
def VecEnv.numReplicas (v : VecEnv) : Nat := v.thunks.length

/-- Whether the handle is the multi-process (`SubprocVecEnv`) variant. -/
def VecEnv.isSubproc : VecEnv → Bool
  | VecEnv.subproc _ => true
  | VecEnv.dummy _ => false

/-- The argument of the `env.seed(...)` call recorded in a trace; `none` when
`env.seed(None)` was called, i.e. no seed value was applied. -/
def appliedSeed (tr : List WrapEvent) : Option Int :=
  tr.foldl (fun acc e =>
    match e with
    | WrapEvent.seedCall s => s
    | _ => acc) none

/-- The filename argument the trace passed to the `Monitor` adapter; `none`
when no monitor was attached or its filename was `None`. -/
def monitorPath (tr : List WrapEvent) : Option String :=
  tr.foldl (fun acc e =>
    match e with
    | WrapEvent.monitor p => p
    | _ => acc) none

/-- Modelled from the spec: the episode-monitoring adapter
(`baselines.bench.Monitor`, repository code not under `src/`) writes an
episode-statistics file exactly when its filename argument is non-null; with a
null filename logging stays in-memory only. -/
def monitorWritesFile (tr : List WrapEvent) : Bool := (monitorPath tr).isSome

/-- Whether an event is the multiplicative reward-scaling adapter. -/
def WrapEvent.isRewardScale : WrapEvent → Bool
  | WrapEvent.rewardScale _ => true
  | _ => false

/-- Whether an event is the `env.update_params(...)` call. -/
def WrapEvent.isUpdateParams : WrapEvent → Bool
  | WrapEvent.updateParams _ => true
  | _ => false

/-- Modelled from the spec: `RewardScaler` (`baselines.common.retro_wrappers`,
repository code not under `src/`) multiplies every step reward by its scale
factor, and it is the only reward-transforming adapter in this model; so
`stepReward tr r` is the step reward the fully wrapped handle reports when the
chain beneath any reward-scaling adapter reports `r`. -/
def stepReward (tr : List WrapEvent) (r : ℚ) : ℚ :=
  tr.foldl (fun acc e =>
    match e with
    | WrapEvent.rewardScale s => s * acc
    | _ => acc) r

/-- The effects of a successful `make_mujoco_env` call: the value passed to
`set_global_seeds`, the id given to `gym.make`, the filename given to
`Monitor`, the argument of `env.seed(...)`, and the reward scaler, if any. -/
structure MujocoResult where
  globalSeed : Option Int
  envId : String
  monitorFile : Option String
  envSeed : Option Int
  rewardScaler : Option ℚ
deriving DecidableEq

/-- `make_mujoco_env` (cmd_util.py lines 97-112).  Its first statement is
`rank = MPI.COMM_WORLD.Get_rank()` with no guard for a missing module, so when
the `mpi4py` import failed (the module handle is `None`) the call raises an
`AttributeError` before doing anything else. -/
def make_mujoco_env (mpi : Option Nat) (logDir : Option String)
    (env_id : String) (seed : Option Int) (reward_scale : ℚ) :
    Except String MujocoResult :=
  match mpi with
  | none =>
    Except.error "AttributeError: NoneType object has no attribute COMM_WORLD"
  | some rank =>
    let myseed := seed.map (fun s => s + 1000 * (rank : Int))
    let logger_path := logDir.map (fun d => osPathJoin d (Nat.repr rank))
    Except.ok
      { globalSeed := myseed
        envId := env_id
        monitorFile := logger_path
        envSeed := seed
        rewardScaler :=
          if reward_scale ≠ 1 then some reward_scale else none }

theorem stepReward_append (a b : List WrapEvent) (r : ℚ) :
    stepReward (a ++ b) r = stepReward b (stepReward a r) := by
  simp [stepReward, List.foldl_append]

theorem stepReward_cons (e : WrapEvent) (tr : List WrapEvent) (r : ℚ) :
    stepReward (e :: tr) r =
      stepReward tr
        (match e with
         | WrapEvent.rewardScale s => s * r
         | _ => r) := rfl

theorem stepReward_of_no_scale (tr : List WrapEvent) :
    tr.any WrapEvent.isRewardScale = false → ∀ r, stepReward tr r = r := by
  induction tr with
  | nil => intro _ r; rfl
  | cons e tr' ih =>
    intro h r
    simp only [List.any_cons, Bool.or_eq_false_iff] at h
    obtain ⟨h1, h2⟩ := h
    rw [stepReward_cons]
    cases e with
    | rewardScale s => simp [WrapEvent.isRewardScale] at h1
    | constructBase a b c => exact ih h2 r
    | flattenDict k => exact ih h2 r
    | seedCall s => exact ih h2 r
    | updateParams k => exact ih h2 r
    | monitor p => exact ih h2 r
    | wrapDeepmind a b => exact ih h2 r

theorem make_env_unscaled_no_scale (mpi : Option Nat) (logDir : Option String)
    (odk : Option (List String)) (env_id env_type : String) (subrank : Nat)
    (seed : Option Int) (gamestate : Option String) (fdo : Bool)
    (wk : List (String × String)) :
    (make_env_unscaled mpi logDir odk env_id env_type subrank seed gamestate
      fdo wk).any WrapEvent.isRewardScale = false := by
  simp only [make_env_unscaled]
  split_ifs <;> simp [WrapEvent.isRewardScale]

/-- Claim C6: when `reward_scale ≠ 1`, every step reward of the returned
handle is `reward_scale` times the reward of the chain beneath the scaling
adapter; when `reward_scale = 1` exactly, no reward-scaling adapter appears in
the chain and rewards pass through unchanged.  Both facts are captured by:
the wrapped step reward always equals `reward_scale * r` (which is `r` itself
at scale 1), and a scaling adapter occurs in the chain iff the scale is not 1. -/
theorem make_env_reward_scaling (mpi : Option Nat) (logDir : Option String)
    (odk : Option (List String)) (env_id env_type : String) (subrank : Nat)
    (seed : Option Int) (reward_scale : ℚ) (gamestate : Option String)
    (fdo : Bool) (wk : List (String × String)) (r : ℚ) :
    stepReward (make_env mpi logDir odk env_id env_type subrank seed
      reward_scale gamestate fdo wk) r = reward_scale * r ∧
    ((make_env mpi logDir odk env_id env_type subrank seed reward_scale
      gamestate fdo wk).any WrapEvent.isRewardScale = true ↔
      reward_scale ≠ 1) := by
  have hns := make_env_unscaled_no_scale mpi logDir odk env_id env_type subrank
    seed gamestate fdo wk
  constructor
  · rw [make_env, stepReward_append,
      stepReward_of_no_scale _ hns r]
    by_cases h : reward_scale = 1
    · simp [h, stepReward]
    · simp [h, stepReward]
  · rw [make_env, List.any_append, hns]
    by_cases h : reward_scale = 1
    · simp [h, WrapEvent.isRewardScale]
    · simp [h, WrapEvent.isRewardScale]

/-- Claim C7: when a global log directory is configured, the episode-monitoring
adapter receives the file path `<log_dir>/<rank>.<replica_index>` (the rank
being the MPI rank, 0 when the distributed library is absent, and the replica
index being `subrank`); when no log directory is configured the monitor path is
null and no monitoring file is written. -/
theorem make_env_monitor_path (mpi : Option Nat) (odk : Option (List String))
    (env_id env_type : String) (subrank : Nat) (seed : Option Int) (rs : ℚ)
    (gs : Option String) (fdo : Bool) (wk : List (String × String))
    (d : String) :
    monitorPath (make_env mpi (some d) odk env_id env_type subrank seed rs gs
      fdo wk) =
      some (osPathJoin d (Nat.repr (mpi.getD 0) ++ "." ++ Nat.repr subrank)) ∧
    monitorPath (make_env mpi none odk env_id env_type subrank seed rs gs fdo
      wk) = none ∧
    monitorWritesFile (make_env mpi none odk env_id env_type subrank seed rs
      gs fdo wk) = false := by
  refine ⟨?_, ?_, ?_⟩ <;>
    · simp only [make_env, make_env_unscaled, monitorWritesFile]
      split_ifs <;> simp [monitorPath, List.foldl_append]

/-- Claim C8: the family-specific keyword options are forwarded to the
environment's `update_params` method iff the identifier is exactly
`priors-v0`, and in that case the call happens right after the `env.seed(...)`
call and before the `Monitor` adapter is applied. -/
theorem make_env_priors_update_params (mpi : Option Nat)
    (logDir : Option String) (odk : Option (List String))
    (env_id env_type : String) (subrank : Nat) (seed : Option Int) (rs : ℚ)
    (gs : Option String) (fdo : Bool) (wk : List (String × String)) :
    ((make_env mpi logDir odk env_id env_type subrank seed rs gs fdo wk).any
      WrapEvent.isUpdateParams = true ↔ env_id = "priors-v0") ∧
    (env_id = "priors-v0" →
      ∃ pre suf,
        make_env mpi logDir odk env_id env_type subrank seed rs gs fdo wk =
          pre ++
          [WrapEvent.seedCall (seed.map (fun s => s + subrank)),
           WrapEvent.updateParams wk,
           WrapEvent.monitor (logDir.map (fun d =>
             osPathJoin d (Nat.repr (mpi.getD 0) ++ "." ++
               Nat.repr subrank)))] ++ suf) := by
  constructor
  · simp only [make_env, make_env_unscaled]
    split_ifs <;> simp_all [WrapEvent.isUpdateParams]
  · intro h
    subst h
    refine ⟨[WrapEvent.constructBase env_type "priors-v0"
        (if env_type = "retro" then some (gs.getD "retro.State.DEFAULT")
         else none)] ++
      (if fdo && odk.isSome then [WrapEvent.flattenDict (odk.getD [])]
       else []),
      (if env_type = "atari" then [WrapEvent.wrapDeepmind "atari" wk]
       else if env_type = "retro" then [WrapEvent.wrapDeepmind "retro" wk]
       else []) ++
      (if rs ≠ 1 then [WrapEvent.rewardScale rs] else []), ?_⟩
    simp [make_env, make_env_unscaled]

theorem make_env_priors_update_params_witness :
    (make_env (some 0) (some "logs") none "priors-v0" "custom" 0 (some 7) 1
      none true [("exp_dur", "100")]).any WrapEvent.isUpdateParams = true ∧
    ∃ pre suf,
      make_env (some 0) (some "logs") none "priors-v0" "custom" 0 (some 7) 1
        none true [("exp_dur", "100")] =
        pre ++
        [WrapEvent.seedCall ((some (7 : Int)).map (fun s => s + (0 : Nat))),
         WrapEvent.updateParams [("exp_dur", "100")],
         WrapEvent.monitor ((some "logs").map (fun d =>
           osPathJoin d (Nat.repr ((some 0 : Option Nat).getD 0) ++ "." ++
             Nat.repr 0)))] ++ suf :=
  ⟨(make_env_priors_update_params (some 0) (some "logs") none "priors-v0"
      "custom" 0 (some 7) 1 none true [("exp_dur", "100")]).1.mpr rfl,
   (make_env_priors_update_params (some 0) (some "logs") none "priors-v0"
      "custom" 0 (some 7) 1 none true [("exp_dur", "100")]).2 rfl⟩


theorem make_env_appliedSeed (mpi : Option Nat) (logDir : Option String)
    (odk : Option (List String)) (env_id env_type : String) (subrank : Nat)
    (seed : Option Int) (rs : ℚ) (gs : Option String) (fdo : Bool)
    (wk : List (String × String)) :
    appliedSeed (make_env mpi logDir odk env_id env_type subrank seed rs gs
      fdo wk) = seed.map (fun s => s + (subrank : Int)) := by
  simp only [make_env, make_env_unscaled]
  split_ifs <;> simp [appliedSeed, List.foldl_append]

theorem appliedSeed_runThunk (mpi : Option Nat) (logDir : Option String)
    (odk : Option (List String)) (env_id env_type : String)
    (seed2 : Option Int) (rs : ℚ) (gs : Option String) (fdo : Bool)
    (wk : List (String × String)) (rank : Nat) :
    appliedSeed (runThunk mpi logDir odk
      (make_thunk env_id env_type seed2 rs gs fdo wk rank)) =
      seed2.map (fun s => s + (rank : Int)) := by
  simp only [runThunk, make_thunk]
  rw [make_env_appliedSeed]

theorem make_vec_env_vec_eq (mpi : Option Nat) (env_id env_type : String)
    (num_env : Nat) (seed : Option Int) (wk : List (String × String))
    (start_index : Nat) (rs : ℚ) (fdo : Bool) (gs : Option String) :
    (make_vec_env mpi env_id env_type num_env seed wk start_index rs fdo
      gs).vec =
      if num_env > 1 then
        VecEnv.subproc ((List.range num_env).map (fun i =>
          make_thunk env_id env_type
            (seed.map (fun s => s + 10000 * ((mpi.getD 0 : Nat) : Int))) rs
            gs fdo wk (i + start_index)))
      else
        VecEnv.dummy [make_thunk env_id env_type
          (seed.map (fun s => s + 10000 * ((mpi.getD 0 : Nat) : Int))) rs gs
          fdo wk start_index] := rfl

/-- Claim C4: for every replica count `N ≥ 1`, `make_vec_env` returns a handle
with exactly `N` replicas; with a non-null seed and a zero distributed-rank
offset, running replica `i`'s thunk applies seed `seed + start_index + i` to
the replica, and with a null seed no seed value is applied to any replica
(both cases are the `Option.map` form of the right-hand side). -/
theorem make_vec_env_replica_seeding (mpi : Option Nat)
    (logDir : Option String) (odk : Option (List String))
    (env_id env_type : String) (num_env : Nat) (seed : Option Int)
    (wk : List (String × String)) (start_index : Nat) (rs : ℚ) (fdo : Bool)
    (gs : Option String) (hN : 1 ≤ num_env) (hr : mpi.getD 0 = 0) :
    (make_vec_env mpi env_id env_type num_env seed wk start_index rs fdo
      gs).vec.numReplicas = num_env ∧
    ∀ i : Nat,
      ∀ hi : i < ((make_vec_env mpi env_id env_type num_env seed wk
        start_index rs fdo gs).vec.thunks).length,
      appliedSeed (runThunk mpi logDir odk
        (((make_vec_env mpi env_id env_type num_env seed wk start_index rs
          fdo gs).vec.thunks).get ⟨i, hi⟩)) =
        seed.map (fun s => s + ((start_index + i : Nat) : Int)) := by
  have hv := make_vec_env_vec_eq mpi env_id env_type num_env seed wk
    start_index rs fdo gs
  by_cases h : num_env > 1
  · rw [if_pos h] at hv
    have hth : (make_vec_env mpi env_id env_type num_env seed wk start_index
        rs fdo gs).vec.thunks =
        (List.range num_env).map (fun j =>
          make_thunk env_id env_type
            (seed.map (fun s => s + 10000 * ((mpi.getD 0 : Nat) : Int))) rs
            gs fdo wk (j + start_index)) := by
      rw [hv, VecEnv.thunks]
    refine ⟨?_, ?_⟩
    · simp only [VecEnv.numReplicas, hth]
      simp
    · intro i hi
      rw [List.get_eq_getElem, List.getElem_of_eq hth]
      simp only [List.getElem_map, List.getElem_range]
      rw [appliedSeed_runThunk]
      cases seed with
      | none => rfl
      | some s =>
        rw [hr]
        simp only [Option.map]
        congr 1
        push_cast
        ring
  · rw [if_neg h] at hv
    have h1 : num_env = 1 := by omega
    have hth : (make_vec_env mpi env_id env_type num_env seed wk start_index
        rs fdo gs).vec.thunks =
        [make_thunk env_id env_type
          (seed.map (fun s => s + 10000 * ((mpi.getD 0 : Nat) : Int))) rs gs
          fdo wk start_index] := by
      rw [hv, VecEnv.thunks]
    refine ⟨?_, ?_⟩
    · simp only [VecEnv.numReplicas, hth, h1]
      rfl
    · intro i hi
      have hi1 : i < 1 := by
        rw [hth] at hi
        simpa using hi
      have hi0 : i = 0 := Nat.lt_one_iff.mp hi1
      subst hi0
      rw [List.get_eq_getElem, List.getElem_of_eq hth]
      simp only [List.getElem_cons_zero]
      rw [appliedSeed_runThunk]
      cases seed with
      | none => rfl
      | some s =>
        rw [hr]
        simp only [Option.map]
        congr 1
        push_cast
        ring

theorem make_vec_env_replica_seeding_witness :
    (make_vec_env (some 0) "CartPole-v1" "mujoco" 3 (some 5) [] 10 1 true
      none).vec.numReplicas = 3 ∧
    appliedSeed (runThunk (some 0) (some "logs") none
      (((make_vec_env (some 0) "CartPole-v1" "mujoco" 3 (some 5) [] 10 1
        true none).vec.thunks).get ⟨2, by decide⟩)) =
      (some (5 : Int)).map (fun s => s + (((10 : Nat) + (2 : Nat) : Nat) : Int)) :=
  ⟨(make_vec_env_replica_seeding (some 0) (some "logs") none "CartPole-v1"
      "mujoco" 3 (some 5) [] 10 1 true none (by decide) (by decide)).1,
   (make_vec_env_replica_seeding (some 0) (some "logs") none "CartPole-v1"
      "mujoco" 3 (some 5) [] 10 1 true none (by decide) (by decide)).2 2
     (by decide)⟩

/-- Claim C5: the execution mode depends only on the replica count: with
`num_env > 1` the handle is the multi-process `SubprocVecEnv` variant whose
replicas are unevaluated thunks carrying indices
`start_index … start_index + N - 1`, each forcing to an invocation of the
`make_env` factory with its stored arguments (so construction happens only
where the thunk is run, i.e. inside the worker); otherwise it is the
in-process `DummyVecEnv` variant holding one thunk at `start_index`. -/
theorem make_vec_env_mode_and_thunks (mpi : Option Nat)
    (logDir : Option String) (odk : Option (List String))
    (env_id env_type : String) (num_env : Nat) (seed : Option Int)
    (wk : List (String × String)) (start_index : Nat) (rs : ℚ) (fdo : Bool)
    (gs : Option String) :
    ((make_vec_env mpi env_id env_type num_env seed wk start_index rs fdo
      gs).vec.isSubproc = true ↔ num_env > 1) ∧
    ((make_vec_env mpi env_id env_type num_env seed wk start_index rs fdo
      gs).vec.thunks.map EnvThunk.subrank =
      if num_env > 1 then (List.range num_env).map (fun i => i + start_index)
      else [start_index]) ∧
    ((make_vec_env mpi env_id env_type num_env seed wk start_index rs fdo
      gs).vec.thunks.map (runThunk mpi logDir odk) =
      (make_vec_env mpi env_id env_type num_env seed wk start_index rs fdo
        gs).vec.thunks.map (fun t =>
          make_env mpi logDir odk t.env_id t.env_type t.subrank t.seed
            t.reward_scale t.gamestate t.flatten_dict_observations
            t.wrapper_kwargs)) := by
  have hv := make_vec_env_vec_eq mpi env_id env_type num_env seed wk
    start_index rs fdo gs
  refine ⟨?_, ?_, rfl⟩
  · by_cases h : num_env > 1
    · rw [if_pos h] at hv
      rw [hv]
      simp [VecEnv.isSubproc, h]
    · rw [if_neg h] at hv
      rw [hv]
      simp [VecEnv.isSubproc, h]
  · by_cases h : num_env > 1
    · rw [if_pos h] at hv
      rw [hv, if_pos h, VecEnv.thunks, List.map_map]
      simp [make_thunk, Function.comp]
    · rw [if_neg h] at hv
      rw [hv, if_neg h, VecEnv.thunks]
      simp [make_thunk]

/-- Claim C9: `make_mujoco_env` dereferences the MPI module unconditionally,
so when the import failed (the module handle is `None`) the call raises an
`AttributeError` instead of falling back to rank 0 — whereas `make_env` and
`make_vec_env` with an absent library behave exactly as with a present
library reporting rank 0. -/
theorem make_mujoco_env_requires_mpi (logDir : Option String)
    (odk : Option (List String)) (env_id env_type : String) (subrank : Nat)
    (seed : Option Int) (rs : ℚ) (gs : Option String) (fdo : Bool)
    (wk : List (String × String)) (num_env : Nat) (start_index : Nat) :
    make_mujoco_env none logDir env_id seed rs =
      Except.error
        "AttributeError: NoneType object has no attribute COMM_WORLD" ∧
    make_env none logDir odk env_id env_type subrank seed rs gs fdo wk =
      make_env (some 0) logDir odk env_id env_type subrank seed rs gs fdo
        wk ∧
    make_vec_env none env_id env_type num_env seed wk start_index rs fdo gs =
      make_vec_env (some 0) env_id env_type num_env seed wk start_index rs
        fdo gs :=
  ⟨rfl, rfl, rfl⟩

/-- Claim C10: in `make_mujoco_env` with a non-null seed, the `1000 × rank`
offset is applied only to the global RNG seed handed to `set_global_seeds`;
`env.seed` receives the raw un-offset seed, so any two distributed ranks
construct environments with the identical environment seed. -/
theorem make_mujoco_env_env_seed_unoffset (logDir : Option String)
    (env_id : String) (s : Int) (rs : ℚ) (rank r1 r2 : Nat) :
    (make_mujoco_env (some rank) logDir env_id (some s) rs).map
      MujocoResult.globalSeed = Except.ok (some (s + 1000 * (rank : Int))) ∧
    (make_mujoco_env (some rank) logDir env_id (some s) rs).map
      MujocoResult.envSeed = Except.ok (some s) ∧
    (make_mujoco_env (some r1) logDir env_id (some s) rs).map
      MujocoResult.envSeed =
      (make_mujoco_env (some r2) logDir env_id (some s) rs).map
        MujocoResult.envSeed :=
  ⟨rfl, rfl, rfl⟩
